import Mathlib

/-!
Verification of the HmSph backend's listing (filter + paginate + project) layer.

The JavaScript routes are shallowly embedded: every `where` object built by a
route handler becomes a decidable predicate on the corresponding record type,
the `findMany`/`count` pair becomes a pure executor over an explicit list of
records (the database snapshot), and the response shaping becomes a structure.
JavaScript numbers that can be `NaN` are embedded as `JsNum`; query-string
parameters are `Option String` (`none` = parameter absent).
-/

namespace HmSph

/-- A JavaScript number restricted to the integral values the routes compute
with, plus `NaN` (the result of coercing a non-numeric string). -/
inductive JsNum where
  | num (v : Int)
  | nan
deriving DecidableEq, Repr

/-- JS subtraction: any operation on `NaN` is `NaN`. -/
def JsNum.sub : JsNum → JsNum → JsNum
  | .num a, .num b => .num (a - b)
  | _, _ => .nan

/-- JS multiplication: any operation on `NaN` is `NaN`. -/
def JsNum.mul : JsNum → JsNum → JsNum
  | .num a, .num b => .num (a * b)
  | _, _ => .nan

/-- JS `>=` comparison: any comparison with `NaN` is false. -/
def JsNum.ge : JsNum → JsNum → Bool
  | .num a, .num b => b ≤ a
  | _, _ => false

/-- JS `<=` comparison: any comparison with `NaN` is false. -/
def JsNum.le : JsNum → JsNum → Bool
  | .num a, .num b => a ≤ b
  | _, _ => false

/-- Numeric value of a digit character. -/
def digitVal (c : Char) : Nat := c.toNat - '0'.toNat

/-- Value of a list of decimal digit characters (most significant first). -/
def digitsVal : List Char → Nat
  | [] => 0
  | c :: cs => digitVal c * 10 ^ cs.length + digitsVal cs

/-- JS `parseInt` on the decimal strings the API receives: an optional sign
followed by at least one digit parses to that integer, anything else is `NaN`
(hex/whitespace/trailing-garbage refinements of `parseInt` are not exercised
by the routes' inputs and are not modelled). -/
def parseIntJS : String → JsNum
  | s =>
    match s.toList with
    | [] => .nan
    | '-' :: cs => if cs ≠ [] ∧ cs.all Char.isDigit then .num (-(digitsVal cs : Int)) else .nan
    | cs => if cs.all Char.isDigit then .num (digitsVal cs) else .nan

/-- JS truthiness of an optional query-string parameter: absent (`undefined`)
and the empty string are falsy, every other string is truthy. -/
def truthy : Option String → Bool
  | none => false
  | some s => s ≠ ""

/-- `pat.isPrefixOf hay` over characters, then recursion down the haystack:
Boolean substring containment. -/
def listContains (hay pat : List Char) : Bool :=
  pat.isPrefixOf hay ||
    match hay with
    | [] => false
    | _ :: t => listContains t pat

/-- Prisma `{ contains: pat, mode: 'insensitive' }`: case-insensitive
substring match. -/
def containsCI (hay pat : String) : Bool :=
  listContains hay.toLower.toList pat.toLower.toList

/-- A property row, with the related agent's user fields denormalised in
(they are eager-loaded via `include`/joined in the admin search predicate). -/
structure Property where
  id : String
  title : String
  description : String
  price : Int
  address : String
  city : String
  state : String
  zipCode : String
  bedrooms : Int
  bathrooms : Int
  squareFootage : Int
  propertyType : String
  status : String
  agentId : String
  agentFirstName : String
  agentLastName : String
  agentEmail : String
  createdAt : Int
deriving DecidableEq, Repr

/-- Query parameters of `GET /properties` (all optional strings on the wire). -/
structure PropsQuery where
  search : Option String := none
  priceMin : Option String := none
  priceMax : Option String := none
  bedrooms : Option String := none
  bathrooms : Option String := none
  propertyType : Option String := none
  city : Option String := none
  state : Option String := none
deriving Repr

/-- Whether an optional condition holds: an absent (falsy) parameter adds no
constraint, mirroring `...(param && { ... })` conditional spread. -/
def optCond (param : Option String) (cond : String → Bool) : Bool :=
  match param with
  | none => true
  | some s => if s ≠ "" then cond s else true

/-- The `where` object of `properties router.get('/')` (reviews.js 1182-1198):
`status: 'ACTIVE'` always, then one conditionally-spread fragment per
parameter, all conjoined. -/
def propertiesWhere (q : PropsQuery) (p : Property) : Bool :=
  p.status == "ACTIVE"
  && optCond q.search (fun s =>
       containsCI p.title s || containsCI p.description s || containsCI p.city s)
  && optCond q.priceMin (fun s => JsNum.ge (.num p.price) (parseIntJS s))
  && optCond q.priceMax (fun s => JsNum.le (.num p.price) (parseIntJS s))
  && optCond q.bedrooms (fun s => JsNum.num p.bedrooms == parseIntJS s)
  && optCond q.bathrooms (fun s => JsNum.ge (.num p.bathrooms) (parseIntJS s))
  && optCond q.propertyType (fun s => p.propertyType == s)
  && optCond q.city (fun s => containsCI p.city s)
  && optCond q.state (fun s => containsCI p.state s)

/-- The `where` object of `properties router.get('/search')` (reviews.js
1257-1274): identical to the main listing except the free-text parameter is
`q` and its OR also spans `address`. -/
def propertiesSearchWhere (q : PropsQuery) (p : Property) : Bool :=
  p.status == "ACTIVE"
  && optCond q.search (fun s =>
       containsCI p.title s || containsCI p.description s || containsCI p.city s
         || containsCI p.address s)
  && optCond q.priceMin (fun s => JsNum.ge (.num p.price) (parseIntJS s))
  && optCond q.priceMax (fun s => JsNum.le (.num p.price) (parseIntJS s))
  && optCond q.bedrooms (fun s => JsNum.num p.bedrooms == parseIntJS s)
  && optCond q.bathrooms (fun s => JsNum.ge (.num p.bathrooms) (parseIntJS s))
  && optCond q.propertyType (fun s => p.propertyType == s)
  && optCond q.city (fun s => containsCI p.city s)
  && optCond q.state (fun s => containsCI p.state s)

/-- A review row (schema `reviews`: nullable `propertyId`/`agentId`). -/
structure Review where
  id : String
  rating : Int
  comment : String
  propertyId : Option String
  agentId : Option String
  userId : String
  status : String
  likes : Int
  dislikes : Int
  createdAt : Int
deriving DecidableEq, Repr

/-- An agent row with its eager-loaded user fields denormalised in.  The
field set follows the current schema: the `licenseNumber` column was renamed
to `registrationNumber` by the repository's rename migration, so the model
has no `licenseNumber` field. -/
structure Agent where
  id : String
  userId : String
  userFirstName : String
  userLastName : String
  userEmail : String
  userAvatar : Option String
  userCreatedAt : Int
  registrationNumber : String
  verificationStatus : String
  subscriptionPlan : String
  commissionRate : Option Int
  specialties : List String
  listingLimits : Option Int
  businessName : Option String
  phone : Option String
  bio : Option String
  profileImage : Option String
  isVerified : Bool
  createdAt : Int
  updatedAt : Int
deriving DecidableEq, Repr

/-- Shape of every paginated listing response:
`{ <items>, total, page, pages }`. -/
structure ListResponse (α : Type) where
  items : List α
  total : Nat
  page : Nat
  pages : Int
deriving Repr

/-- `Math.ceil(total / limit)`: exact rational division then ceiling.  (For
`limit = 0` JS yields `Infinity`; the embedding is used with `limit ≥ 1`.) -/
def jsPages (total limit : Nat) : Int := ⌈(total : ℚ) / (limit : ℚ)⌉

/-- Stable sort, descending by an integer key (`orderBy: { k: 'desc' }`). -/
def sortByKeyDesc (key : α → Int) (l : List α) : List α :=
  @List.insertionSort α (fun a b => key b ≤ key a)
    (fun a b => Int.decLe (key b) (key a)) l

/-- The `Promise.all([findMany, count])` executor common to the listing
routes: `total` from the count query's predicate, `items` from the fetch
query's predicate, sorted, then `skip = (page-1)*limit` and `take = limit`
applied.  `page`/`limit` are the well-formed (positive numeral) projections
of the query parameters. -/
def runListing (fetchWhere countWhere : α → Bool) (key : α → Int)
    (db : List α) (page limit : Nat) : ListResponse α :=
  let total := (db.filter countWhere).length
  { items := ((sortByKeyDesc key (db.filter fetchWhere)).drop ((page - 1) * limit)).take limit
    total := total
    page := page
    pages := jsPages total limit }

/-- `GET /properties` (reviews.js 1164-1228): one shared `where` for fetch
and count, ordered by `createdAt` descending. -/
def propertiesList (q : PropsQuery) (db : List Property) (page limit : Nat) :
    ListResponse Property :=
  runListing (propertiesWhere q) (propertiesWhere q) Property.createdAt db page limit

/-- `GET /properties/search` (reviews.js 1239-1304). -/
def propertiesSearch (q : PropsQuery) (db : List Property) (page limit : Nat) :
    ListResponse Property :=
  runListing (propertiesSearchWhere q) (propertiesSearchWhere q) Property.createdAt db page limit

/-- Fetch `where` of reviews `GET /property/:propertyId` (reviews.js 90-108):
the options literal binds the `where` key twice — `{ status: 'APPROVED' }`
and then `{ propertyId }` — and by JS object-literal semantics the last
binding wins, so the effective fetch predicate is the `propertyId` condition
alone. -/
def reviewsByPropertyFetchWhere (pid : String) (r : Review) : Bool :=
  r.propertyId == some pid

/-- Count `where` of reviews `GET /property/:propertyId` (reviews.js 109). -/
def reviewsByPropertyCountWhere (pid : String) (r : Review) : Bool :=
  r.propertyId == some pid

/-- `GET /reviews/property/:propertyId` (reviews.js 82-125). -/
def reviewsByPropertyList (pid : String) (db : List Review) (page limit : Nat) :
    ListResponse Review :=
  runListing (reviewsByPropertyFetchWhere pid) (reviewsByPropertyCountWhere pid)
    Review.createdAt db page limit

/-- Fetch `where` of reviews `GET /` (reviews.js 35-37). -/
def reviewsListFetchWhere (r : Review) : Bool := r.status == "APPROVED"

/-- Count `where` of reviews `GET /` (reviews.js 60-62). -/
def reviewsListCountWhere (r : Review) : Bool := r.status == "APPROVED"

/-- `GET /reviews` (reviews.js 9-78). -/
def reviewsList (db : List Review) (page limit : Nat) : ListResponse Review :=
  runListing reviewsListFetchWhere reviewsListCountWhere Review.createdAt db page limit

/-- JS `String.prototype.trim`: strip leading and trailing whitespace. -/
def jsTrim (s : String) : String :=
  ⟨((s.toList.dropWhile Char.isWhitespace).reverse.dropWhile Char.isWhitespace).reverse⟩

/-- `search && search.trim() !== '' && search !== 'undefined'`
(admin.js 228). -/
def adminAgentsSearchActive : Option String → Bool
  | none => false
  | some s => s ≠ "" && jsTrim s ≠ "" && s ≠ "undefined"

/-- Allowed verification statuses (admin.js 239). -/
def validStatuses : List String := ["PENDING", "APPROVED", "REJECTED", "SUSPENDED"]

/-- The status filter value of admin `GET /agents` (admin.js 236-244):
`none` means no filter is added to the `where` object. -/
def adminAgentsStatusFilter : Option String → Option String
  | none => none
  | some s =>
    if s ≠ "" && s ≠ "all" && s ≠ "undefined" && jsTrim s ≠ "" then
      if validStatuses.contains s.toUpper then some s.toUpper else none
    else none

/-- The `where` object of admin `GET /agents` (admin.js 224-244). -/
def adminAgentsWhere (search status : Option String) (a : Agent) : Bool :=
  (if adminAgentsSearchActive search then
     match search with
     | some s =>
         containsCI a.userFirstName (jsTrim s) || containsCI a.userLastName (jsTrim s)
           || containsCI a.registrationNumber (jsTrim s)
     | none => true
   else true)
  && (match adminAgentsStatusFilter status with
      | some st => a.verificationStatus == st
      | none => true)

/-- Admin `GET /agents` (admin.js 218-320): shared `where` for fetch and
count. -/
def adminAgentsList (search status : Option String) (db : List Agent)
    (page limit : Nat) : ListResponse Agent :=
  runListing (adminAgentsWhere search status) (adminAgentsWhere search status)
    Agent.createdAt db page limit

/-- The `where` object of admin `GET /properties` (admin.js 439-461):
`status` destructures with default `'all'`; the filter is spread only when
the (defaulted) value is truthy and not `'all'`. -/
def adminPropertiesWhere (statusParam searchParam : Option String)
    (p : Property) : Bool :=
  let status := statusParam.getD "all"
  (if status ≠ "" && status ≠ "all" then p.status == status else true)
  && optCond searchParam (fun s =>
       containsCI p.title s || containsCI p.description s || containsCI p.address s
         || containsCI p.agentFirstName s || containsCI p.agentLastName s
         || containsCI p.agentEmail s)

/-- Admin `GET /properties` (admin.js 437-510): shared `where` for fetch and
count. -/
def adminPropertiesList (statusParam searchParam : Option String)
    (db : List Property) (page limit : Nat) : ListResponse Property :=
  runListing (adminPropertiesWhere statusParam searchParam)
    (adminPropertiesWhere statusParam searchParam) Property.createdAt db page limit

/-- `const { page = 1, ... } = req.query; const skip = (page - 1) * limit`
(reviews.js 11-12, admin.js 17-18): the destructuring default `1` applies
only when the parameter is absent; a supplied string is numerically coerced
by the arithmetic (`NaN` for non-numeric input), with no clamping.  The
`page` argument is the numeric coercion of the supplied string, or `none`
when the parameter is absent. -/
def listingSkip (page : Option JsNum) (limit : JsNum) : JsNum :=
  ((page.getD (.num 1)).sub (.num 1)).mul limit

/-- Validated body of `properties router.post('/')` (reviews.js 1359-1370). -/
structure PropertyBody where
  title : String
  description : String
  price : Int
  address : String
  city : String
  state : String
  zipCode : String
  bedrooms : Int
  bathrooms : Int
  squareFootage : Int
  propertyType : String
deriving DecidableEq, Repr

/-- The record written by `properties router.post('/')` (reviews.js
1386-1391): the body spread, then `status: 'PENDING'` and the owning
agent. -/
def createPropertyData (b : PropertyBody) (agent : Agent) (newId : String)
    (now : Int) : Property :=
  { id := newId
    title := b.title, description := b.description, price := b.price
    address := b.address, city := b.city, state := b.state, zipCode := b.zipCode
    bedrooms := b.bedrooms, bathrooms := b.bathrooms
    squareFootage := b.squareFootage, propertyType := b.propertyType
    status := "PENDING"
    agentId := agent.id
    agentFirstName := agent.userFirstName, agentLastName := agent.userLastName
    agentEmail := agent.userEmail
    createdAt := now }

/-- Admin `POST /properties/:id/approve` (admin.js 524-526): sets the
property's status to `ACTIVE`. -/
def approveProperty (p : Property) : Property := { p with status := "ACTIVE" }

/-- A favorite row (`User × Property` join entity). -/
structure Favorite where
  userId : String
  propertyId : String
deriving DecidableEq, Repr

/-- Outcome of `favorites router.post('/')`. -/
inductive FavPostOutcome where
  | badRequest (msg : String)
  | notFound (msg : String)
  | conflict (msg : String)
  | created (f : Favorite)
deriving DecidableEq, Repr

/-- HTTP status of each favorites-POST outcome (favorites.js 54/63/77/104). -/
def favStatusCode : FavPostOutcome → Nat
  | .badRequest _ => 400
  | .notFound _ => 404
  | .conflict _ => 409
  | .created _ => 201

/-- `favorites router.post('/')` (favorites.js 49-115): reject falsy
`propertyId` (400), missing property (404), existing `(user, property)`
favorite (409, `findUnique` on the composite key); otherwise create (201). -/
def favoritesPost (props : List Property) (favs : List Favorite) (uid : String)
    (propertyId : Option String) : FavPostOutcome × List Favorite :=
  match propertyId with
  | none => (.badRequest "Property ID is required", favs)
  | some pid =>
    if pid == "" then (.badRequest "Property ID is required", favs)
    else if ¬ props.any (fun p => p.id == pid) then
      (.notFound "Property not found", favs)
    else if favs.any (fun f => f.userId == uid && f.propertyId == pid) then
      (.conflict "Property already in favorites", favs)
    else (.created ⟨uid, pid⟩, favs ++ [⟨uid, pid⟩])

/-- Number of favorite rows a user holds. -/
def favCount (favs : List Favorite) (uid : String) : Nat :=
  (favs.filter (fun f => f.userId == uid)).length

/-- Body of the review-creation route (reviews.js 698-702): `rating` as the
numeric coercion of the posted value, `comment`, and the two optional target
ids. -/
structure ReviewBody where
  rating : JsNum
  comment : String
  propertyId : Option String
  agentId : Option String
deriving DecidableEq, Repr

/-- The express-validator chain of reviews `POST /` (reviews.js 698-702):
`rating` an integer in `[1,5]`, trimmed `comment` length in `[10,1000]`
(`propertyId`/`agentId` are optional strings, valid by construction). -/
def reviewBodyValid (b : ReviewBody) : Bool :=
  (match b.rating with
   | .num v => decide (1 ≤ v) && decide (v ≤ 5)
   | .nan => false)
  && decide (10 ≤ (jsTrim b.comment).length) && decide ((jsTrim b.comment).length ≤ 1000)

/-- Outcome of reviews `POST /`. -/
inductive ReviewPostOutcome where
  | validationErrors
  | noToken
  | badRequest (msg : String)
  | created (r : Review)
deriving DecidableEq, Repr

/-- HTTP status of each review-POST outcome (reviews.js 707/712/722 etc.). -/
def reviewStatusCode : ReviewPostOutcome → Nat
  | .validationErrors => 400
  | .noToken => 401
  | .badRequest _ => 400
  | .created _ => 201

/-- Integral value of a `JsNum` (`parseInt(rating)` after validation). -/
def JsNum.toInt : JsNum → Int
  | .num v => v
  | .nan => 0

/-- `reviews router.post('/')` (reviews.js 698-806, the variant with two
optional targets).  `auth` is the verified token's userId (`none`: missing
token → 401).  Order as in the source: validation, token, the
both-targets-missing check, target existence, duplicate check, create with
status `PENDING`.  In the duplicate check the Prisma condition
`OR: [{propertyId: propertyId || undefined}, {agentId: agentId || undefined}]`
strips an `undefined` member down to the empty condition, which matches every
record — embedded as `true` for the missing side. -/
def reviewsPost (auth : Option String) (props : List Property)
    (agents : List Agent) (reviews : List Review) (b : ReviewBody)
    (newId : String) (now : Int) : ReviewPostOutcome × List Review :=
  if ¬ reviewBodyValid b then (.validationErrors, reviews)
  else
    match auth with
    | none => (.noToken, reviews)
    | some uid =>
      if ¬ truthy b.propertyId && ¬ truthy b.agentId then
        (.badRequest "Either propertyId or agentId must be provided for reviews",
          reviews)
      else if truthy b.propertyId && ¬ props.any (fun p => some p.id == b.propertyId) then
        (.badRequest "Invalid propertyId: property does not exist", reviews)
      else if truthy b.agentId && ¬ agents.any (fun a => some a.id == b.agentId) then
        (.badRequest "Invalid agentId: agent does not exist", reviews)
      else if reviews.any (fun r =>
          r.userId == uid
            && ((if truthy b.propertyId then r.propertyId == b.propertyId else true)
                  || (if truthy b.agentId then r.agentId == b.agentId else true))) then
        (.badRequest "You have already reviewed this property or agent", reviews)
      else
        let newR : Review :=
          { id := newId, rating := b.rating.toInt, comment := jsTrim b.comment
            propertyId := if truthy b.propertyId then b.propertyId else none
            agentId := if truthy b.agentId then b.agentId else none
            userId := uid, status := "PENDING", likes := 0, dislikes := 0
            createdAt := now }
        (.created newR, reviews ++ [newR])

/-- JSON-serializable JavaScript values appearing in the projections. -/
inductive JVal where
  | str (s : String)
  | num (q : Rat)
  | jbool (b : Bool)
  | jnull
  | undefined
  | strList (l : List String)
deriving DecidableEq, Repr

/-- JS truthiness of a `JVal` (arrays, being objects, are always truthy). -/
def JVal.truthyV : JVal → Bool
  | .str s => s ≠ ""
  | .num q => q ≠ 0
  | .jbool b => b
  | .jnull => false
  | .undefined => false
  | .strList _ => true

/-- JS `a || b`. -/
def jsOr (a b : JVal) : JVal := if a.truthyV then a else b

/-- JS property read `o[k]`: `undefined` when the key is absent. -/
def jsGet (o : List (String × JVal)) (k : String) : JVal :=
  ((o.find? (fun kv => kv.1 == k)).map Prod.snd).getD .undefined

/-- JS `xs?.[0]`. -/
def jsIndex0 : JVal → JVal
  | .strList (s :: _) => .str s
  | _ => .undefined

/-- An optional string column as a JS value (`null` when unset). -/
def optStr : Option String → JVal
  | none => .jnull
  | some s => .str s

/-- An optional integer column as a JS value (`null` when unset). -/
def optNum : Option Int → JVal
  | none => .jnull
  | some v => .num v

/-- The keys `JSON.stringify`/`res.json` actually emits: keys whose value is
`undefined` are dropped from the serialized object. -/
def jsonKeys (o : List (String × JVal)) : List String :=
  (o.filter (fun kv => kv.2 ≠ JVal.undefined)).map Prod.fst

/-- The agent row as the JS object Prisma returns: one entry per model
column (the `licenseNumber` column no longer exists — the repository's
rename migration turned it into `registrationNumber`). -/
def agentJsObject (a : Agent) : List (String × JVal) :=
  [("id", .str a.id), ("userId", .str a.userId),
   ("registrationNumber", .str a.registrationNumber),
   ("verificationStatus", .str a.verificationStatus),
   ("subscriptionPlan", .str a.subscriptionPlan),
   ("commissionRate", optNum a.commissionRate),
   ("specialties", .strList a.specialties),
   ("listingLimits", optNum a.listingLimits),
   ("businessName", optStr a.businessName),
   ("phone", optStr a.phone),
   ("bio", optStr a.bio),
   ("profileImage", optStr a.profileImage),
   ("isVerified", .jbool a.isVerified),
   ("createdAt", .num a.createdAt), ("updatedAt", .num a.updatedAt)]

/-- `transformedAgents` of the public agents listing (part_002 58-87).
`props` is the agent's eager-loaded `properties` (selected fields
`id`,`status`,`price`; `reviews` is not selected, so `p.reviews?.length || 0`
contributes `0` per property).  Reads of agent-model columns go through
`jsGet` on the serialized row, so the stale `agent.licenseNumber` read yields
`undefined`. -/
def transformedAgent (a : Agent) (props : List Property) : List (String × JVal) :=
  let obj := agentJsObject a
  let soldProperties : Nat := (props.filter (fun p => p.status == "SOLD")).length
  let totalReviews : Rat := props.foldl (fun sum _ => sum + 0) 0
  [("id", jsGet obj "id"),
   ("name", .str (a.userFirstName ++ " " ++ a.userLastName)),
   ("email", .str a.userEmail),
   ("image", optStr a.userAvatar),
   ("title", .str "Real Estate Agent"),
   ("location", jsOr (jsIndex0 (jsGet obj "specialties")) (.str "Available")),
   ("bio", jsOr (jsGet obj "bio") (.str "Experienced real estate professional")),
   ("specialties", jsOr (jsGet obj "specialties") (.strList ["Real Estate"])),
   ("rating", .num (9 / 2)),
   ("reviews", .num totalReviews),
   ("propertiesSold", .num soldProperties),
   ("yearsExperience", .num 5),
   ("licenseNumber", jsGet obj "licenseNumber"),
   ("isVerified", jsGet obj "isVerified"),
   ("phone", jsGet obj "phone"),
   ("profileImage", jsGet obj "profileImage")]

/-- `transformedAgents` of the admin agents listing variant (part_005
129-152): same stale `agent.licenseNumber` read. -/
def adminTransformedAgent (a : Agent) (props : List Property) :
    List (String × JVal) :=
  let obj := agentJsObject a
  let activeProperties : Nat := (props.filter (fun p => p.status == "ACTIVE")).length
  let soldProperties : Nat := (props.filter (fun p => p.status == "SOLD")).length
  [("agentId", jsGet obj "id"),
   ("firstName", .str a.userFirstName),
   ("lastName", .str a.userLastName),
   ("email", .str a.userEmail),
   ("phone", jsGet obj "phone"),
   ("businessName", jsGet obj "businessName"),
   ("licenseNumber", jsGet obj "licenseNumber"),
   ("isVerified", jsGet obj "isVerified"),
   ("verificationStatus", jsGet obj "verificationStatus"),
   ("subscriptionPlan", jsGet obj "subscriptionPlan"),
   ("currentMonthListings", .num activeProperties),
   ("listingLimits", jsOr (jsGet obj "listingLimits") (.num 25)),
   ("profilePicture", jsOr (optStr a.userAvatar) (.str "/api/placeholder/64/64")),
   ("totalSales", .num soldProperties),
   ("rating", .num (24 / 5)),
   ("joinedDate", .num a.userCreatedAt),
   ("lastActive", .num a.updatedAt)]

/-- A user row (credentials plus profile fields). -/
structure User where
  id : String
  email : String
  password : String
  firstName : String
  lastName : String
  role : String
  phone : Option String
  avatar : Option String
  emailVerified : Bool
  createdAt : Int
  updatedAt : Int
deriving DecidableEq, Repr

/-- The user row as the JS object Prisma returns without a `select`: every
model column, including the bcrypt `password` hash. -/
def userJsObject (u : User) : List (String × JVal) :=
  [("id", .str u.id), ("email", .str u.email), ("password", .str u.password),
   ("firstName", .str u.firstName), ("lastName", .str u.lastName),
   ("role", .str u.role), ("phone", optStr u.phone), ("avatar", optStr u.avatar),
   ("emailVerified", .jbool u.emailVerified),
   ("createdAt", .num u.createdAt), ("updatedAt", .num u.updatedAt)]

/-- The user object returned by `POST /register` (reviews.js 1560-1576): the
`create` runs with an explicit `select` of six fields; `password` is not
selected. -/
def registerUserView (u : User) : List (String × JVal) :=
  [("id", .str u.id), ("email", .str u.email), ("firstName", .str u.firstName),
   ("lastName", .str u.lastName), ("role", .str u.role),
   ("createdAt", .num u.createdAt)]

/-- The user object returned by `POST /login` (reviews.js 1689): the row was
fetched with `include: { agent: true }` (the joined value is the opaque
`agentVal`), then `const { password: _, ...userWithoutPassword } = user`
keeps every own key except `password`. -/
def loginUserView (u : User) (agentVal : JVal) : List (String × JVal) :=
  (userJsObject u ++ [("agent", agentVal)]).filter (fun kv => kv.1 ≠ "password")

/-- The user object returned by `GET /profile` (reviews.js 1795-1810): same
rest-destructuring as login. -/
def profileUserView (u : User) (agentVal : JVal) : List (String × JVal) :=
  (userJsObject u ++ [("agent", agentVal)]).filter (fun kv => kv.1 ≠ "password")

/-- The user object returned by `GET /me` (reviews.js 1818-1833): same
rest-destructuring as login. -/
def meUserView (u : User) (agentVal : JVal) : List (String × JVal) :=
  (userJsObject u ++ [("agent", agentVal)]).filter (fun kv => kv.1 ≠ "password")

/-! ## Concrete sample data (used by counterexamples and witnesses) -/

/-- A sample approved agent. -/
def agent0 : Agent :=
  { id := "agent-1", userId := "user-1", userFirstName := "Ada"
    userLastName := "Lovelace", userEmail := "ada@example.com"
    userAvatar := none, userCreatedAt := 0, registrationNumber := "REG-12345"
    verificationStatus := "APPROVED", subscriptionPlan := "BASIC"
    commissionRate := none, specialties := [], listingLimits := none
    businessName := none, phone := none, bio := none, profileImage := none
    isVerified := true, createdAt := 0, updatedAt := 0 }

/-- A sample validated property body, price 100. -/
def body100 : PropertyBody :=
  { title := "Casa Uno", description := "Small starter home"
    price := 100, address := "1 Main Street", city := "Lagos", state := "LA"
    zipCode := "10001", bedrooms := 2, bathrooms := 1, squareFootage := 80
    propertyType := "HOUSE" }

/-- The three properties of the C4 scenario, as the create route writes
them (status `PENDING`). -/
def prop100 : Property := createPropertyData body100 agent0 "prop-100" 1

def prop200 : Property := createPropertyData { body100 with price := 200 } agent0 "prop-200" 2

def prop300 : Property := createPropertyData { body100 with price := 300 } agent0 "prop-300" 3

/-- `GET /properties?priceMin=150`. -/
def qPriceMin150 : PropsQuery := { priceMin := some "150" }

/-- An `ACTIVE` property, as left by admin approval. -/
def propActive : Property := approveProperty prop100

/-- An existing favorite of the sample user for `prop-100`. -/
def fav0 : Favorite := ⟨"user-9", "prop-100"⟩

/-- A review body that passes validation but names neither target. -/
def reviewBody0 : ReviewBody :=
  { rating := .num 5, comment := "Great location and service."
    propertyId := none, agentId := none }

/-! ## Helper lemmas -/

/-- `Math.ceil(total / limit)` equals the natural ceiling division
`(total + limit - 1) / limit` whenever `limit ≥ 1`. -/
theorem jsPages_eq (total limit : Nat) (h : 1 ≤ limit) :
    jsPages total limit = ((total + limit - 1) / limit : ℕ) := by
  have hl0 : 0 < limit := h
  have hlq : (0 : ℚ) < (limit : ℚ) := by exact_mod_cast hl0
  set q : Nat := (total + limit - 1) / limit with hq
  have hB : total ≤ limit * q := by
    have := le_smul_ceilDiv (α := ℕ) (β := ℕ) (a := limit) (b := total) hl0
    simpa [Nat.ceilDiv_eq_add_pred_div, smul_eq_mul, hq] using this
  have hA : q * limit ≤ total + limit - 1 := Nat.div_mul_le_self (total + limit - 1) limit
  rw [jsPages, Int.ceil_eq_iff]
  constructor
  · rw [lt_div_iff₀ hlq]
    have hAz : (q : ℤ) * limit ≤ (total : ℤ) + limit - 1 := by
      have h1 : ((q * limit : ℕ) : ℤ) ≤ ((total + limit - 1 : ℕ) : ℤ) := by exact_mod_cast hA
      push_cast at h1
      omega
    have hq2 : ((q : ℚ)) * limit - limit < total := by
      have hz : ((q : ℤ)) * limit - limit < total := by linarith
      exact_mod_cast hz
    push_cast
    nlinarith [hq2]
  · rw [div_le_iff₀ hlq]
    have hc : (total : ℚ) ≤ limit * q := by exact_mod_cast hB
    push_cast
    linarith

/-- The count-under-the-ceiling bound: `total ≤ limit * ((total+limit-1)/limit)`. -/
theorem total_le_limit_mul_ceil (total limit : Nat) (h : 1 ≤ limit) :
    total ≤ limit * ((total + limit - 1) / limit) := by
  have := le_smul_ceilDiv (α := ℕ) (β := ℕ) (a := limit) (b := total) h
  simpa [Nat.ceilDiv_eq_add_pred_div, smul_eq_mul] using this

theorem length_sortByKeyDesc (key : α → Int) (l : List α) :
    (sortByKeyDesc key l).length = l.length :=
  @List.length_insertionSort α (fun a b => key b ≤ key a)
    (fun a b => Int.decLe (key b) (key a)) l

theorem mem_sortByKeyDesc (key : α → Int) (l : List α) (x : α) :
    x ∈ sortByKeyDesc key l ↔ x ∈ l :=
  @List.mem_insertionSort α (fun a b => key b ≤ key a)
    (fun a b => Int.decLe (key b) (key a)) l x

/-- Every item the executor returns satisfies the fetch predicate. -/
theorem mem_items_satisfies (fetchWhere countWhere : α → Bool) (key : α → Int)
    (db : List α) (page limit : Nat) (x : α)
    (hx : x ∈ (runListing fetchWhere countWhere key db page limit).items) :
    fetchWhere x = true := by
  have h1 := List.mem_of_mem_take hx
  have h2 := List.mem_of_mem_drop h1
  have h3 : x ∈ db.filter fetchWhere := (mem_sortByKeyDesc _ _ _).1 h2
  exact (List.mem_filter.1 h3).2

/-- Shared pagination facts for an executor whose fetch and count predicates
coincide: `pages` is the ceiling division of `total` by `limit`, and any page
strictly beyond `pages` yields an empty item list with the page-1 `total` and
`pages`. -/
theorem runListing_pages (p : α → Bool) (key : α → Int) (db : List α)
    (page limit : Nat) (hl : 1 ≤ limit) :
    (runListing p p key db page limit).pages
        = (((runListing p p key db page limit).total + limit - 1) / limit : ℕ)
    ∧ ((runListing p p key db page limit).pages < (page : ℤ) →
        (runListing p p key db page limit).items = []
        ∧ (runListing p p key db page limit).total
            = (runListing p p key db 1 limit).total
        ∧ (runListing p p key db page limit).pages
            = (runListing p p key db 1 limit).pages) := by
  set total := (db.filter p).length with htotal
  have hpages : (runListing p p key db page limit).pages
      = ((total + limit - 1) / limit : ℕ) := jsPages_eq total limit hl
  refine ⟨hpages, fun hbeyond => ⟨?_, rfl, rfl⟩⟩
  rw [hpages] at hbeyond
  have hqlt : (total + limit - 1) / limit < page := by exact_mod_cast hbeyond
  have hskip : total ≤ (page - 1) * limit := by
    calc total ≤ limit * ((total + limit - 1) / limit) :=
          total_le_limit_mul_ceil total limit hl
      _ ≤ limit * (page - 1) := Nat.mul_le_mul_left _ (by omega)
      _ = (page - 1) * limit := Nat.mul_comm _ _
  have hlen : (sortByKeyDesc key (db.filter p)).length ≤ (page - 1) * limit := by
    rw [length_sortByKeyDesc]
    exact hskip
  show ((sortByKeyDesc key (db.filter p)).drop ((page - 1) * limit)).take limit = []
  rw [List.drop_eq_nil_of_le hlen, List.take_nil]

/-! ## Claims -/

/-- C1: for every modelled listing request the count query and the fetch
query evaluate the same predicate, and the `total` of the response equals
the number of database records satisfying that predicate — an expression
free of `page` and `limit`. -/
theorem listing_total_counts_full_filter :
    (∀ (q : PropsQuery) (db : List Property) (page limit : Nat),
        (propertiesList q db page limit).total
          = (db.filter (propertiesWhere q)).length)
    ∧ (∀ (q : PropsQuery) (db : List Property) (page limit : Nat),
        (propertiesSearch q db page limit).total
          = (db.filter (propertiesSearchWhere q)).length)
    ∧ (∀ (pid : String) (r : Review),
        reviewsByPropertyCountWhere pid r = reviewsByPropertyFetchWhere pid r)
    ∧ (∀ (pid : String) (db : List Review) (page limit : Nat),
        (reviewsByPropertyList pid db page limit).total
          = (db.filter (reviewsByPropertyFetchWhere pid)).length)
    ∧ (∀ (r : Review), reviewsListCountWhere r = reviewsListFetchWhere r)
    ∧ (∀ (db : List Review) (page limit : Nat),
        (reviewsList db page limit).total
          = (db.filter reviewsListFetchWhere).length)
    ∧ (∀ (search status : Option String) (db : List Agent) (page limit : Nat),
        (adminAgentsList search status db page limit).total
          = (db.filter (adminAgentsWhere search status)).length)
    ∧ (∀ (sp se : Option String) (db : List Property) (page limit : Nat),
        (adminPropertiesList sp se db page limit).total
          = (db.filter (adminPropertiesWhere sp se)).length) :=
  ⟨fun _ _ _ _ => rfl, fun _ _ _ _ => rfl, fun _ _ => rfl, fun _ _ _ _ => rfl,
    fun _ => rfl, fun _ _ _ => rfl, fun _ _ _ _ _ => rfl, fun _ _ _ _ _ => rfl⟩

/-- C2: for every modelled listing endpoint, `pages` equals
`ceil(total / limit)` (as the natural ceiling division, for `limit ≥ 1`),
and a requested page strictly beyond `pages` yields an empty item list with
`total` and `pages` unchanged from their page-1 values. -/
theorem pagination_pages_ceiling_and_beyond :
    (∀ (q : PropsQuery) (db : List Property) (page limit : Nat), 1 ≤ limit →
        (propertiesList q db page limit).pages
            = (((propertiesList q db page limit).total + limit - 1) / limit : ℕ)
        ∧ ((propertiesList q db page limit).pages < (page : ℤ) →
            (propertiesList q db page limit).items = []
            ∧ (propertiesList q db page limit).total
                = (propertiesList q db 1 limit).total
            ∧ (propertiesList q db page limit).pages
                = (propertiesList q db 1 limit).pages))
    ∧ (∀ (pid : String) (db : List Review) (page limit : Nat), 1 ≤ limit →
        (reviewsByPropertyList pid db page limit).pages
            = (((reviewsByPropertyList pid db page limit).total + limit - 1) / limit : ℕ)
        ∧ ((reviewsByPropertyList pid db page limit).pages < (page : ℤ) →
            (reviewsByPropertyList pid db page limit).items = []
            ∧ (reviewsByPropertyList pid db page limit).total
                = (reviewsByPropertyList pid db 1 limit).total
            ∧ (reviewsByPropertyList pid db page limit).pages
                = (reviewsByPropertyList pid db 1 limit).pages))
    ∧ (∀ (db : List Review) (page limit : Nat), 1 ≤ limit →
        (reviewsList db page limit).pages
            = (((reviewsList db page limit).total + limit - 1) / limit : ℕ)
        ∧ ((reviewsList db page limit).pages < (page : ℤ) →
            (reviewsList db page limit).items = []
            ∧ (reviewsList db page limit).total = (reviewsList db 1 limit).total
            ∧ (reviewsList db page limit).pages = (reviewsList db 1 limit).pages))
    ∧ (∀ (search status : Option String) (db : List Agent) (page limit : Nat),
        1 ≤ limit →
        (adminAgentsList search status db page limit).pages
            = (((adminAgentsList search status db page limit).total + limit - 1) / limit : ℕ)
        ∧ ((adminAgentsList search status db page limit).pages < (page : ℤ) →
            (adminAgentsList search status db page limit).items = []
            ∧ (adminAgentsList search status db page limit).total
                = (adminAgentsList search status db 1 limit).total
            ∧ (adminAgentsList search status db page limit).pages
                = (adminAgentsList search status db 1 limit).pages))
    ∧ (∀ (sp se : Option String) (db : List Property) (page limit : Nat),
        1 ≤ limit →
        (adminPropertiesList sp se db page limit).pages
            = (((adminPropertiesList sp se db page limit).total + limit - 1) / limit : ℕ)
        ∧ ((adminPropertiesList sp se db page limit).pages < (page : ℤ) →
            (adminPropertiesList sp se db page limit).items = []
            ∧ (adminPropertiesList sp se db page limit).total
                = (adminPropertiesList sp se db 1 limit).total
            ∧ (adminPropertiesList sp se db page limit).pages
                = (adminPropertiesList sp se db 1 limit).pages)) :=
  ⟨fun q db page limit hl => runListing_pages (propertiesWhere q) _ db page limit hl,
    fun pid db page limit hl =>
      runListing_pages (reviewsByPropertyFetchWhere pid) _ db page limit hl,
    fun db page limit hl => runListing_pages reviewsListFetchWhere _ db page limit hl,
    fun search status db page limit hl =>
      runListing_pages (adminAgentsWhere search status) _ db page limit hl,
    fun sp se db page limit hl =>
      runListing_pages (adminPropertiesWhere sp se) _ db page limit hl⟩

/-- C2 witness: the pagination facts at a concrete input (one `ACTIVE`
property, page 2, limit 10, so page 2 lies strictly beyond `pages = 1`). -/
theorem pagination_pages_ceiling_and_beyond_witness :
    (1 : ℕ) ≤ 10
    ∧ ((propertiesList {} [propActive] 2 10).pages
          = (((propertiesList {} [propActive] 2 10).total + 10 - 1) / 10 : ℕ)
        ∧ ((propertiesList {} [propActive] 2 10).pages < ((2 : ℕ) : ℤ) →
            (propertiesList {} [propActive] 2 10).items = []
            ∧ (propertiesList {} [propActive] 2 10).total
                = (propertiesList {} [propActive] 1 10).total
            ∧ (propertiesList {} [propActive] 2 10).pages
                = (propertiesList {} [propActive] 1 10).pages)) :=
  ⟨by decide, pagination_pages_ceiling_and_beyond.1 {} [propActive] 2 10 (by decide)⟩

/-- C3 counterexample: on admin `GET /properties`, `status=undefined` is
passed through as a status filter, so its result set differs from the
parameter-absent request on a database holding one `ACTIVE` property. -/
theorem status_undefined_filters_admin_properties :
    adminPropertiesWhere (some "undefined") none propActive
        ≠ adminPropertiesWhere none none propActive
    ∧ (adminPropertiesList (some "undefined") none [propActive] 1 50).items = []
    ∧ (adminPropertiesList none none [propActive] 1 50).items = [propActive] := by
  decide

/-- C3 (amended): on admin `GET /agents`, `status` equal to `""`, `"all"` or
`"undefined"` is treated exactly like an absent `status`, and `search` equal
to `""` or `"undefined"` exactly like an absent `search`; on admin
`GET /properties`, `status` equal to `""` or `"all"` is treated exactly like
an absent `status` (but `"undefined"` is not — see the counterexample). -/
theorem filter_sentinels_amended :
    (∀ (a : Agent) (se st : Option String),
        st = some "" ∨ st = some "all" ∨ st = some "undefined" →
        adminAgentsWhere se st a = adminAgentsWhere se none a)
    ∧ (∀ (a : Agent) (se : Option String),
        se = some "" ∨ se = some "undefined" →
        adminAgentsWhere se none a = adminAgentsWhere none none a)
    ∧ (∀ (p : Property) (se st : Option String),
        st = some "" ∨ st = some "all" →
        adminPropertiesWhere st se p = adminPropertiesWhere none se p) := by
  refine ⟨fun a se st hst => ?_, fun a se hse => ?_, fun p se st hst => ?_⟩
  · rcases hst with rfl | rfl | rfl <;> rfl
  · rcases hse with rfl | rfl <;> rfl
  · rcases hst with rfl | rfl <;> rfl

/-- C3 amended witness: the equivalence at a concrete agent and
`status=all`. -/
theorem filter_sentinels_amended_witness :
    ((some "all" : Option String) = some "" ∨ (some "all" : Option String) = some "all"
        ∨ (some "all" : Option String) = some "undefined")
    ∧ adminAgentsWhere none (some "all") agent0 = adminAgentsWhere none none agent0 :=
  ⟨Or.inr (Or.inl rfl),
    filter_sentinels_amended.1 agent0 none (some "all") (Or.inr (Or.inl rfl))⟩

/-- C4 counterexample: the three properties the create route writes are
`PENDING`, and the public listing filters on `status: 'ACTIVE'`, so
`GET /properties?priceMin=150` right after the creations returns no items
and `total = 0`, not 2. -/
theorem created_properties_not_listed :
    (propertiesList qPriceMin150 [prop100, prop200, prop300] 1 10).total = 0
    ∧ (propertiesList qPriceMin150 [prop100, prop200, prop300] 1 10).items = []
    ∧ (propertiesList qPriceMin150 [prop100, prop200, prop300] 1 10).total ≠ 2 := by
  decide

/-- C4 (amended): once the three created properties have been admin-approved
to `ACTIVE`, `GET /properties?priceMin=150` returns exactly the two priced
200 and 300 (newest first) and `total = 2`. -/
theorem approved_properties_pricemin_two :
    (propertiesList qPriceMin150
        [approveProperty prop100, approveProperty prop200, approveProperty prop300]
        1 10).total = 2
    ∧ (propertiesList qPriceMin150
        [approveProperty prop100, approveProperty prop200, approveProperty prop300]
        1 10).items = [approveProperty prop300, approveProperty prop200]
    ∧ (propertiesList qPriceMin150
        [approveProperty prop100, approveProperty prop200, approveProperty prop300]
        1 10).items.map Property.price = [300, 200] := by
  decide

/-- C5 counterexample: a supplied `page` below 1 (or non-numeric) is not
defaulted to 1 — `page=0` with `limit=10` produces offset `-10`, not the
offset `0` that `page = 1` produces. -/
theorem skip_page_zero_not_defaulted :
    listingSkip (some (.num 0)) (.num 10) = .num (-10)
    ∧ listingSkip (some .nan) (.num 10) = .nan
    ∧ listingSkip (some (.num 0)) (.num 10) ≠ listingSkip none (.num 10) := by
  decide

/-- C5 (amended): `page` defaults to 1 only when the parameter is absent
(offset 0); a supplied numeric page gives offset `(page - 1) * limit` with
no clamping (negative for `page < 1`), and a non-numeric page gives a `NaN`
offset. -/
theorem skip_default_and_formula :
    (∀ l : Int, listingSkip none (.num l) = .num 0)
    ∧ (∀ p l : Int, listingSkip (some (.num p)) (.num l) = .num ((p - 1) * l))
    ∧ (∀ l : JsNum, listingSkip (some .nan) l = .nan) := by
  refine ⟨fun l => ?_, fun p l => rfl, fun l => ?_⟩
  · simp [listingSkip, JsNum.sub, JsNum.mul]
  · cases l <;> rfl

/-- C6: a favorite POST for a `(user, property)` pair that already has a
favorite record returns 409 and leaves the favorites state (hence the
user's favorite count) unchanged. -/
theorem duplicate_favorite_returns_409 (props : List Property)
    (favs : List Favorite) (uid pid : String) (hpid : pid ≠ "")
    (hprop : props.any (fun p => p.id == pid) = true)
    (hdup : favs.any (fun f => f.userId == uid && f.propertyId == pid) = true) :
    favStatusCode (favoritesPost props favs uid (some pid)).1 = 409
    ∧ (favoritesPost props favs uid (some pid)).2 = favs
    ∧ favCount (favoritesPost props favs uid (some pid)).2 uid
        = favCount favs uid := by
  have h1 : (pid == "") = false := beq_eq_false_iff_ne.2 hpid
  simp [favoritesPost, h1, hprop, hdup, favStatusCode]

/-- C6 witness: the duplicate POST at a concrete state. -/
theorem duplicate_favorite_returns_409_witness :
    ("prop-100" ≠ ""
      ∧ [prop100].any (fun p => p.id == "prop-100") = true
      ∧ [fav0].any (fun f => f.userId == "user-9" && f.propertyId == "prop-100") = true)
    ∧ (favStatusCode (favoritesPost [prop100] [fav0] "user-9" (some "prop-100")).1 = 409
        ∧ (favoritesPost [prop100] [fav0] "user-9" (some "prop-100")).2 = [fav0]
        ∧ favCount (favoritesPost [prop100] [fav0] "user-9" (some "prop-100")).2 "user-9"
            = favCount [fav0] "user-9") :=
  ⟨⟨by decide, by decide, by decide⟩,
    duplicate_favorite_returns_409 [prop100] [fav0] "user-9" "prop-100"
      (by decide) (by decide) (by decide)⟩

/-- C7: an authenticated review POST naming neither `propertyId` nor
`agentId` returns 400 and creates no review record; when the body otherwise
passes validation, the 400 carries the explanatory message. -/
theorem review_post_without_target_rejected (props : List Property)
    (agents : List Agent) (reviews : List Review) (b : ReviewBody)
    (uid newId : String) (now : Int)
    (hp : truthy b.propertyId = false) (ha : truthy b.agentId = false) :
    reviewStatusCode (reviewsPost (some uid) props agents reviews b newId now).1 = 400
    ∧ (reviewsPost (some uid) props agents reviews b newId now).2 = reviews
    ∧ (reviewBodyValid b = true →
        (reviewsPost (some uid) props agents reviews b newId now).1
          = .badRequest "Either propertyId or agentId must be provided for reviews") := by
  by_cases hv : reviewBodyValid b = true
  · simp [reviewsPost, hv, hp, ha, reviewStatusCode]
  · simp [reviewsPost, hv, reviewStatusCode]

/-- C7 witness: the rejection at a concrete valid body with no target. -/
theorem review_post_without_target_rejected_witness :
    (truthy reviewBody0.propertyId = false ∧ truthy reviewBody0.agentId = false)
    ∧ (reviewStatusCode (reviewsPost (some "user-9") [] [] [] reviewBody0 "rev-1" 0).1 = 400
        ∧ (reviewsPost (some "user-9") [] [] [] reviewBody0 "rev-1" 0).2 = []
        ∧ (reviewBodyValid reviewBody0 = true →
            (reviewsPost (some "user-9") [] [] [] reviewBody0 "rev-1" 0).1
              = .badRequest "Either propertyId or agentId must be provided for reviews")) :=
  ⟨⟨rfl, rfl⟩,
    review_post_without_target_rejected [] [] [] reviewBody0 "user-9" "rev-1" 0 rfl rfl⟩

/-- C8: the agents-listing projections read `agent.licenseNumber`, a column
the rename migration turned into `registrationNumber`, so the promised
`licenseNumber` key is `undefined` and dropped from the serialized response
for every agent; the constant defaults for `rating` and `yearsExperience`
are, by contrast, always present. -/
theorem agents_projection_licenseNumber_undefined :
    ∀ (a : Agent) (props : List Property),
      jsGet (transformedAgent a props) "licenseNumber" = JVal.undefined
      ∧ "licenseNumber" ∉ jsonKeys (transformedAgent a props)
      ∧ jsGet (adminTransformedAgent a props) "licenseNumber" = JVal.undefined
      ∧ jsGet (transformedAgent a props) "rating" = JVal.num (9 / 2)
      ∧ jsGet (transformedAgent a props) "yearsExperience" = JVal.num 5 := by
  intro a props
  refine ⟨?_, ?_, ?_, ?_, ?_⟩
  · simp [transformedAgent, jsGet, agentJsObject]
  · simp [transformedAgent, jsonKeys, jsGet, agentJsObject]
  · simp [adminTransformedAgent, jsGet, agentJsObject]
  · simp [transformedAgent, jsGet]
  · simp [transformedAgent, jsGet]

/-- C9: every property returned by the public `GET /properties` and
`GET /properties/search` endpoints has status `ACTIVE`, for every
combination of query parameters. -/
theorem public_listing_only_active :
    (∀ (q : PropsQuery) (db : List Property) (page limit : Nat) (p : Property),
        p ∈ (propertiesList q db page limit).items → p.status = "ACTIVE")
    ∧ (∀ (q : PropsQuery) (db : List Property) (page limit : Nat) (p : Property),
        p ∈ (propertiesSearch q db page limit).items → p.status = "ACTIVE") := by
  constructor
  · intro q db page limit p hp
    have h := mem_items_satisfies _ _ _ db page limit p hp
    simp only [propertiesWhere, Bool.and_eq_true, beq_iff_eq] at h
    exact h.1.1.1.1.1.1.1.1
  · intro q db page limit p hp
    have h := mem_items_satisfies _ _ _ db page limit p hp
    simp only [propertiesSearchWhere, Bool.and_eq_true, beq_iff_eq] at h
    exact h.1.1.1.1.1.1.1.1

/-- C9 witness: membership and the conclusion at a concrete listing. -/
theorem public_listing_only_active_witness :
    propActive ∈ (propertiesList {} [propActive] 1 10).items
    ∧ propActive.status = "ACTIVE" :=
  ⟨by decide, public_listing_only_active.1 {} [propActive] 1 10 propActive (by decide)⟩

/-- C10: none of the user objects returned by register, login,
`GET /profile` and `GET /me` carries a `password` key — the stored hash
never appears in a response body. -/
theorem auth_responses_never_contain_password :
    ∀ (u : User) (agentVal : JVal),
      "password" ∉ (registerUserView u).map Prod.fst
      ∧ "password" ∉ (loginUserView u agentVal).map Prod.fst
      ∧ "password" ∉ (profileUserView u agentVal).map Prod.fst
      ∧ "password" ∉ (meUserView u agentVal).map Prod.fst := by
  intro u agentVal
  refine ⟨?_, ?_, ?_, ?_⟩ <;>
    simp [registerUserView, loginUserView, profileUserView, meUserView, userJsObject]

end HmSph
